import Mathlib

/-!
Shallow embedding of the client-side handlers in
`Home Service Recommendation/static/js/script.js`.

Each DOM event handler of the script is modelled as a pure function from
its inputs (form field values read at submit time, the result of the
interactive confirmation dialog, the outcome of the `fetch` call together
with `response.json()`, and the relevant part of the DOM) to a result
record describing every observable effect of one invocation: the network
requests issued, the final contents of the message area, the final values
of the form inputs, the timeouts scheduled, the alerts shown, the DOM
afterwards, and any navigation.  The page DOM is modelled as a list of
element ids; `document.getElementById(x)` followed by a null check and
`.remove()` is modelled by removing the first occurrence of `x` if present.
A `fetch`/`response.json()` pair that throws is one constructor of
`FetchOutcome`; the `catch` branch of each handler is the corresponding
match arm, so the handler is a total function: the exception never leaves
it.
-/

/-- The uniform response shape `{success, message}` returned by every
endpoint of the application. -/
structure ActionResponse where
  success : Bool
  message : String
deriving DecidableEq, Repr

/-- Outcome of `await fetch(...)` followed by `await response.json()`:
either a parsed response, or a throw anywhere in transport or parsing
(network error, non-JSON body, rejected promise). -/
inductive FetchOutcome where
  | ok (resp : ActionResponse)
  | throws
deriving DecidableEq, Repr

/-- JavaScript number as produced by `parseInt` / `parseFloat` on these
inputs: a finite value (exact rational) or `NaN`.  (`Infinity`, not
producible by the decimal inputs modelled here, is left out.) -/
inductive JsNum where
  | num (q : ℚ)
  | nan
deriving DecidableEq, Repr

/-- Leading decimal digits of a character list, as digit values, together
with the rest of the list. -/
def takeDigits : List Char → List Nat × List Char
  | [] => ([], [])
  | c :: cs =>
    if c.isDigit then
      match takeDigits cs with
      | (ds, rest) => ((c.toNat - 48) :: ds, rest)
    else ([], c :: cs)

/-- Value of a list of decimal digit values, most significant first. -/
def digitsVal (ds : List Nat) : Nat := ds.foldl (fun a d => 10 * a + d) 0

/-- Drop leading JavaScript whitespace. -/
def stripWs : List Char → List Char
  | [] => []
  | c :: cs =>
    if c = ' ' ∨ c = '\t' ∨ c = '\n' ∨ c = '\r' then stripWs cs else c :: cs

/-- Consume an optional leading sign, returning the sign as `1` or `-1`. -/
def takeSign : List Char → Int × List Char
  | [] => (1, [])
  | c :: cs =>
    if c = '-' then (-1, cs)
    else if c = '+' then (1, cs)
    else (1, c :: cs)

/-- Model of JavaScript `parseInt(s)` on decimal input (the default radix,
with no `0x` prefix): skip whitespace, read an optional sign and then
leading digits, ignore everything after them; `NaN` when no digit is
read. -/
def parseInt (s : String) : JsNum :=
  let cs := stripWs s.toList
  let (sgn, cs1) := takeSign cs
  let (ds, _) := takeDigits cs1
  if ds.isEmpty then JsNum.nan
  else JsNum.num ((sgn * (digitsVal ds : Int) : Int) : ℚ)

/-- Model of JavaScript `parseFloat(s)` on decimal input: skip whitespace,
read an optional sign, integer digits, an optional fraction and an
optional exponent, ignore trailing garbage; `NaN` when no digit is read
before or after the decimal point. -/
def parseFloat (s : String) : JsNum :=
  let cs := stripWs s.toList
  let (sgn, cs1) := takeSign cs
  let (ip, cs2) := takeDigits cs1
  let (fp, cs3) :=
    match cs2 with
    | '.' :: rest => takeDigits rest
    | _ => ([], cs2)
  if ip.isEmpty ∧ fp.isEmpty then JsNum.nan
  else
    let mantissa : ℚ := (digitsVal ip : ℚ) + (digitsVal fp : ℚ) / ((10 : ℚ) ^ fp.length)
    let expPart : Int :=
      match cs3 with
      | [] => 0
      | c :: rest =>
        if c = 'e' ∨ c = 'E' then
          match takeSign rest with
          | (es, rest2) =>
            match takeDigits rest2 with
            | (eds, _) => if eds.isEmpty then 0 else es * (digitsVal eds : Int)
        else 0
    JsNum.num ((sgn : ℚ) * mantissa * (10 : ℚ) ^ expPart)

/-- The Bootstrap success alert wrapped around a server message. -/
def successAlertHtml (msg : String) : String :=
  "<div class=\"alert alert-success rounded-pill\" role=\"alert\">" ++ msg ++ "</div>"

/-- The Bootstrap danger alert wrapped around a server message. -/
def dangerAlertHtml (msg : String) : String :=
  "<div class=\"alert alert-danger rounded-pill\" role=\"alert\">" ++ msg ++ "</div>"

/-- The generic error message both form handlers show from their `catch`
branch. -/
def genericErrorHtml : String :=
  dangerAlertHtml ("An unexpected error occurred.")

/-- The warning shown by the booking handler when the date field is
empty. -/
def emptyDateWarningHtml : String :=
  "<div class=\"alert alert-warning rounded-pill\" role=\"alert\">Please select a preferred date.</div>"

/-- The values of the review form inputs at submit time. -/
structure ReviewForm where
  serviceId : String
  rating : String
  comment : String
deriving DecidableEq, Repr

/-- The JSON object passed to `JSON.stringify` for `/submit_review`. -/
structure ReviewBody where
  service_id : JsNum
  rating : JsNum
  comment : String
deriving DecidableEq, Repr

/-- The body the review handler builds, with `parseInt` / `parseFloat`
applied to the raw input strings and no validation. -/
def mkReviewBody (f : ReviewForm) : ReviewBody :=
  { service_id := parseInt f.serviceId
    rating := parseFloat f.rating
    comment := f.comment }

/-- Observable effects of one invocation of the review submit handler:
`fetch` calls to `/submit_review` (with their bodies), the final contents
and class of `reviewMessage`, the final values of the `reviewRating` and
`reviewComment` inputs, and the delays of the scheduled
`window.location.reload()` timeouts. -/
structure ReviewResult where
  requests : List ReviewBody
  messageHtml : String
  messageClass : String
  ratingValue : String
  commentValue : String
  reloadDelays : List Nat
deriving DecidableEq, Repr

/-- The `reviewForm` submit handler (script.js lines 42–85).  One `fetch`
is always attempted; the three arms are `result.success`,
`!result.success`, and the `catch` branch. -/
def reviewSubmitHandler (f : ReviewForm) (fetch : FetchOutcome) : ReviewResult :=
  match fetch with
  | FetchOutcome.ok result =>
    if result.success then
      { requests := [mkReviewBody f]
        messageHtml := successAlertHtml result.message
        messageClass := "mt-3"
        ratingValue := ""
        commentValue := ""
        reloadDelays := [1500] }
    else
      { requests := [mkReviewBody f]
        messageHtml := dangerAlertHtml result.message
        messageClass := "mt-3"
        ratingValue := f.rating
        commentValue := f.comment
        reloadDelays := [] }
  | FetchOutcome.throws =>
      { requests := [mkReviewBody f]
        messageHtml := genericErrorHtml
        messageClass := "mt-3"
        ratingValue := f.rating
        commentValue := f.comment
        reloadDelays := [] }

/-- The values of the booking form inputs at submit time. -/
structure BookingForm where
  serviceId : String
  bookingDate : String
  bookingNotes : String
deriving DecidableEq, Repr

/-- The JSON object passed to `JSON.stringify` for `/submit_booking`. -/
structure BookingBody where
  service_id : JsNum
  booking_date : String
  booking_notes : String
deriving DecidableEq, Repr

/-- The body the booking handler builds. -/
def mkBookingBody (f : BookingForm) : BookingBody :=
  { service_id := parseInt f.serviceId
    booking_date := f.bookingDate
    booking_notes := f.bookingNotes }

/-- Observable effects of one invocation of the booking submit handler:
`fetch` calls to `/submit_booking`, the final contents and class of
`bookingMessage`, the final values of the `bookingDate` and
`bookingNotes` inputs, and any scheduled reload delays (the booking
handler never schedules one). -/
structure BookingResult where
  requests : List BookingBody
  messageHtml : String
  messageClass : String
  dateValue : String
  notesValue : String
  reloadDelays : List Nat
deriving DecidableEq, Repr

/-- The `bookingForm` submit handler (script.js lines 91–137).  The
JavaScript guard `if (!bookingDate)` fires exactly when the string is
empty; it shows the warning and returns before any `fetch`. -/
def bookingSubmitHandler (f : BookingForm) (fetch : FetchOutcome) : BookingResult :=
  if f.bookingDate = "" then
    { requests := []
      messageHtml := emptyDateWarningHtml
      messageClass := "mt-3"
      dateValue := f.bookingDate
      notesValue := f.bookingNotes
      reloadDelays := [] }
  else
    match fetch with
    | FetchOutcome.ok result =>
      if result.success then
        { requests := [mkBookingBody f]
          messageHtml := successAlertHtml result.message
          messageClass := "mt-3"
          dateValue := ""
          notesValue := ""
          reloadDelays := [] }
      else
        { requests := [mkBookingBody f]
          messageHtml := dangerAlertHtml result.message
          messageClass := "mt-3"
          dateValue := f.bookingDate
          notesValue := f.bookingNotes
          reloadDelays := [] }
    | FetchOutcome.throws =>
        { requests := [mkBookingBody f]
          messageHtml := genericErrorHtml
          messageClass := "mt-3"
          dateValue := f.bookingDate
          notesValue := f.bookingNotes
          reloadDelays := [] }

/-- The element id the booking removal handler derives from the button's
`data-booking-id` (the template literal on script.js line 160). -/
def bookingRowId (bookingId : String) : String := "booking-row-" ++ bookingId

/-- The element id the user removal handler derives from the button's
`data-user-id` (the template literal on script.js line 195). -/
def userRowId (userId : String) : String := "user-row-" ++ userId

/-- `document.getElementById(eid)` followed by `if (row) row.remove()` on a
DOM modelled as a list of element ids: remove the first occurrence of
`eid` when present, leave the list unchanged when absent. -/
def removeElementById : List String → String → List String
  | [], _ => []
  | e :: es, eid => if e = eid then es else e :: removeElementById es eid

/-- Observable effects of one invocation of a removal click handler:
`fetch` calls with their JSON bodies as field lists, the `alert` texts
shown in order, and the DOM (list of element ids) afterwards. -/
structure RemoveResult where
  requests : List (List (String × String))
  alerts : List String
  dom : List String
deriving DecidableEq, Repr

/-- A `remove-booking-btn` click handler (script.js lines 143–172), given
the button's `data-booking-id`, the result of the `confirm` dialog, the
fetch outcome and the current DOM. -/
def removeBookingHandler (bookingId : String) (confirmed : Bool)
    (fetch : FetchOutcome) (dom : List String) : RemoveResult :=
  if confirmed then
    match fetch with
    | FetchOutcome.ok result =>
      if result.success then
        { requests := [[("booking_id", bookingId)]]
          alerts := [result.message]
          dom := removeElementById dom (bookingRowId bookingId) }
      else
        { requests := [[("booking_id", bookingId)]]
          alerts := ["Error: " ++ result.message]
          dom := dom }
    | FetchOutcome.throws =>
        { requests := [[("booking_id", bookingId)]]
          alerts := ["An error occurred while trying to remove the booking."]
          dom := dom }
  else
    { requests := [], alerts := [], dom := dom }

/-- A `remove-user-btn` click handler (script.js lines 178–207), given the
button's `data-user-id`, the result of the `confirm` dialog, the fetch
outcome and the current DOM. -/
def removeUserHandler (userId : String) (confirmed : Bool)
    (fetch : FetchOutcome) (dom : List String) : RemoveResult :=
  if confirmed then
    match fetch with
    | FetchOutcome.ok result =>
      if result.success then
        { requests := [[("user_id", userId)]]
          alerts := [result.message]
          dom := removeElementById dom (userRowId userId) }
      else
        { requests := [[("user_id", userId)]]
          alerts := ["Error: " ++ result.message]
          dom := dom }
    | FetchOutcome.throws =>
        { requests := [[("user_id", userId)]]
          alerts := ["An error occurred while trying to remove the user."]
          dom := dom }
  else
    { requests := [], alerts := [], dom := dom }

/-- Observable effects of one invocation of the account-deletion click
handler: `fetch` calls to `/delete_my_account` with their JSON bodies as
field lists, the alerts shown, and the value assigned to
`window.location.href` if any. -/
structure DeleteAccountResult where
  requests : List (List (String × String))
  alerts : List String
  location : Option String
deriving DecidableEq, Repr

/-- The `deleteMyAccountBtn` click handler (script.js lines 213–237).  The
body is `JSON.stringify({})`: a field list with no entries. -/
def deleteMyAccountHandler (confirmed : Bool) (fetch : FetchOutcome) :
    DeleteAccountResult :=
  if confirmed then
    match fetch with
    | FetchOutcome.ok result =>
      if result.success then
        { requests := [[]]
          alerts := [result.message]
          location := some ("/welcome") }
      else
        { requests := [[]]
          alerts := ["Error: " ++ result.message]
          location := none }
    | FetchOutcome.throws =>
        { requests := [[]]
          alerts := ["An error occurred while trying to delete your account."]
          location := none }
  else
    { requests := [], alerts := [], location := none }

/-- An element of `document.body` for the copy handler: either an element
of the surrounding page or the temporary textarea the handler creates. -/
inductive Elem where
  | page (id : String)
  | temp
deriving DecidableEq, Repr

/-- `parent.removeChild(x)` on a body modelled as a list of elements:
remove the first occurrence of `x`. -/
def removeChild : List Elem → Elem → List Elem
  | [], _ => []
  | e :: es, x => if e = x then es else e :: removeChild es x

/-- Observable effects of one invocation of the copy-contact click
handler: the children of `document.body` afterwards, the clipboard
contents if the copy command succeeded, whether the paired copied-message
span was made visible, and the delays of the scheduled hide timeouts. -/
structure CopyResult where
  body : List Elem
  clipboard : Option String
  copiedVisible : Bool
  hideDelays : List Nat
deriving DecidableEq, Repr

/-- A `copy-contact-btn` click handler (script.js lines 8–36): append a
temporary textarea to the body, try `document.execCommand('copy')`
(which may throw), and in the `finally` block remove the textarea again.
`hasSpan` says whether the paired copied-message span exists. -/
def copyContactHandler (contactNumber : String) (body0 : List Elem)
    (hasSpan : Bool) (copySucceeds : Bool) : CopyResult :=
  let body1 := body0 ++ [Elem.temp]
  if copySucceeds then
    { body := removeChild body1 Elem.temp
      clipboard := some contactNumber
      copiedVisible := hasSpan
      hideDelays := if hasSpan then [2000] else [] }
  else
    { body := removeChild body1 Elem.temp
      clipboard := none
      copiedVisible := false
      hideDelays := [] }

/-- Removing an id that is not in the DOM leaves the DOM unchanged (the
`if (rowToRemove)` null check). -/
theorem removeElementById_eq_of_not_mem (l : List String) (eid : String)
    (h : eid ∉ l) : removeElementById l eid = l := by
  induction l with
  | nil => rfl
  | cons e es ih =>
    simp only [List.mem_cons, not_or] at h
    simp only [removeElementById]
    rw [if_neg (fun he => h.1 he.symm), ih h.2]

/-- Any element with a different id is in the DOM after removal exactly
when it was before. -/
theorem mem_removeElementById_of_ne (l : List String) (eid e : String)
    (hne : e ≠ eid) : e ∈ removeElementById l eid ↔ e ∈ l := by
  induction l with
  | nil => simp [removeElementById]
  | cons a es ih =>
    simp only [removeElementById]
    by_cases ha : a = eid
    · rw [if_pos ha]
      subst ha
      simp [List.mem_cons, hne]
    · rw [if_neg ha]
      simp [List.mem_cons, ih]

/-- In a duplicate-free DOM the removed id is gone afterwards. -/
theorem not_mem_removeElementById (l : List String) (eid : String)
    (h : l.Nodup) : eid ∉ removeElementById l eid := by
  induction l with
  | nil => simp [removeElementById]
  | cons a es ih =>
    rcases List.nodup_cons.mp h with ⟨ha, hes⟩
    simp only [removeElementById]
    by_cases he : a = eid
    · rw [if_pos he]
      subst he
      exact ha
    · rw [if_neg he]
      simp only [List.mem_cons, not_or]
      exact ⟨fun hh => he hh.symm, ih hes⟩

/-- Removing a present id removes exactly one element. -/
theorem length_removeElementById (l : List String) (eid : String)
    (h : eid ∈ l) : (removeElementById l eid).length + 1 = l.length := by
  induction l with
  | nil => cases h
  | cons a es ih =>
    simp only [removeElementById]
    by_cases he : a = eid
    · rw [if_pos he]
      simp
    · rw [if_neg he]
      rcases List.mem_cons.mp h with h1 | h2
      · exact absurd h1.symm he
      · have := ih h2
        simp only [List.length_cons]
        omega

/-- Removing the textarea appended at the end of a body that held no
textarea restores the original body (the `finally` cleanup). -/
theorem removeChild_append_temp (l : List Elem) (h : Elem.temp ∉ l) :
    removeChild (l ++ [Elem.temp]) Elem.temp = l := by
  induction l with
  | nil => simp [removeChild]
  | cons a es ih =>
    simp only [List.mem_cons, not_or] at h
    have hstep : removeChild ((a :: es) ++ [Elem.temp]) Elem.temp =
        if a = Elem.temp then es ++ [Elem.temp]
        else a :: removeChild (es ++ [Elem.temp]) Elem.temp := rfl
    rw [hstep, if_neg (fun he => h.1 he.symm), ih h.2]

/-- C1: for every booking form submission with an empty date field, the
handler writes the warning into the booking message area and returns
without issuing any request to `/submit_booking`, whatever the other
inputs and whatever the server would have answered. -/
theorem booking_empty_date_aborts (sid notes : String) (fetch : FetchOutcome) :
    (bookingSubmitHandler ⟨sid, "", notes⟩ fetch).requests = [] ∧
    (bookingSubmitHandler ⟨sid, "", notes⟩ fetch).messageHtml = emptyDateWarningHtml ∧
    (bookingSubmitHandler ⟨sid, "", notes⟩ fetch).messageClass = "mt-3" :=
  ⟨rfl, rfl, rfl⟩

/-- C2: for every review submission whose server response has
`success: true`, the handler shows the success message, sets the rating
and comment inputs to the empty string, and schedules exactly one page
reload, after 1500 ms. -/
theorem review_success_clears_and_reloads (f : ReviewForm) (msg : String) :
    (reviewSubmitHandler f (FetchOutcome.ok ⟨true, msg⟩)).messageHtml = successAlertHtml msg ∧
    (reviewSubmitHandler f (FetchOutcome.ok ⟨true, msg⟩)).ratingValue = "" ∧
    (reviewSubmitHandler f (FetchOutcome.ok ⟨true, msg⟩)).commentValue = "" ∧
    (reviewSubmitHandler f (FetchOutcome.ok ⟨true, msg⟩)).reloadDelays = [1500] :=
  ⟨rfl, rfl, rfl, rfl⟩

/-- C3: for every removal action (booking removal, user removal, self
account deletion) where the confirmation dialog is declined, no network
request is issued, no alert is shown, the DOM is unchanged, and no
navigation happens. -/
theorem declined_confirmation_no_effect (bid uid : String) (fetch : FetchOutcome)
    (dom : List String) :
    removeBookingHandler bid false fetch dom = ⟨[], [], dom⟩ ∧
    removeUserHandler uid false fetch dom = ⟨[], [], dom⟩ ∧
    deleteMyAccountHandler false fetch = ⟨[], [], none⟩ :=
  ⟨rfl, rfl, rfl⟩

/-- C4: for every booking or user removal with a `success: true` response
on a duplicate-free DOM containing the derived row id, exactly that row is
removed: the row id is gone, the DOM lost exactly one element, and every
element with a different id is present afterwards exactly when it was
before. -/
theorem removal_success_removes_exact_row (bid uid msg : String) (dom : List String)
    (hnd : dom.Nodup) (hb : bookingRowId bid ∈ dom) (hu : userRowId uid ∈ dom) :
    (bookingRowId bid ∉ (removeBookingHandler bid true (FetchOutcome.ok ⟨true, msg⟩) dom).dom ∧
     (removeBookingHandler bid true (FetchOutcome.ok ⟨true, msg⟩) dom).dom.length + 1 =
       dom.length ∧
     ∀ e, e ≠ bookingRowId bid →
       (e ∈ (removeBookingHandler bid true (FetchOutcome.ok ⟨true, msg⟩) dom).dom ↔ e ∈ dom)) ∧
    (userRowId uid ∉ (removeUserHandler uid true (FetchOutcome.ok ⟨true, msg⟩) dom).dom ∧
     (removeUserHandler uid true (FetchOutcome.ok ⟨true, msg⟩) dom).dom.length + 1 =
       dom.length ∧
     ∀ e, e ≠ userRowId uid →
       (e ∈ (removeUserHandler uid true (FetchOutcome.ok ⟨true, msg⟩) dom).dom ↔ e ∈ dom)) := by
  have h1 : (removeBookingHandler bid true (FetchOutcome.ok ⟨true, msg⟩) dom).dom =
      removeElementById dom (bookingRowId bid) := rfl
  have h2 : (removeUserHandler uid true (FetchOutcome.ok ⟨true, msg⟩) dom).dom =
      removeElementById dom (userRowId uid) := rfl
  rw [h1, h2]
  exact ⟨⟨not_mem_removeElementById dom _ hnd, length_removeElementById dom _ hb,
      fun e he => mem_removeElementById_of_ne dom _ e he⟩,
    ⟨not_mem_removeElementById dom _ hnd, length_removeElementById dom _ hu,
      fun e he => mem_removeElementById_of_ne dom _ e he⟩⟩

/-- Witness for C4 at a concrete DOM of three rows. -/
theorem removal_success_removes_exact_row_witness :
    (["booking-row-1", "user-row-2", "x"] : List String).Nodup ∧
    bookingRowId ("1") ∈ (["booking-row-1", "user-row-2", "x"] : List String) ∧
    userRowId ("2") ∈ (["booking-row-1", "user-row-2", "x"] : List String) ∧
    bookingRowId ("1") ∉
      (removeBookingHandler ("1") true (FetchOutcome.ok ⟨true, "ok"⟩)
        ["booking-row-1", "user-row-2", "x"]).dom :=
  ⟨by decide, by decide, by decide,
    (removal_success_removes_exact_row ("1") ("2") ("ok")
      ["booking-row-1", "user-row-2", "x"] (by decide) (by decide) (by decide)).1.1⟩

/-- C5: for every action where the transport or the response parsing
throws, the handler takes its `catch` branch and nothing else: the message
area shows the generic non-specific error text, the form input values are
left exactly as they were, no reload is scheduled, the DOM and location
are untouched, and — the handlers being total functions whose `throws`
case is this very branch — the exception never leaves the handler. -/
theorem transport_throws_generic_error (rf : ReviewForm) (bf : BookingForm)
    (bid uid : String) (dom : List String) (hdate : bf.bookingDate ≠ "") :
    reviewSubmitHandler rf FetchOutcome.throws =
      ⟨[mkReviewBody rf], genericErrorHtml, "mt-3", rf.rating, rf.comment, []⟩ ∧
    bookingSubmitHandler bf FetchOutcome.throws =
      ⟨[mkBookingBody bf], genericErrorHtml, "mt-3", bf.bookingDate, bf.bookingNotes, []⟩ ∧
    removeBookingHandler bid true FetchOutcome.throws dom =
      ⟨[[("booking_id", bid)]],
        ["An error occurred while trying to remove the booking."], dom⟩ ∧
    removeUserHandler uid true FetchOutcome.throws dom =
      ⟨[[("user_id", uid)]],
        ["An error occurred while trying to remove the user."], dom⟩ ∧
    deleteMyAccountHandler true FetchOutcome.throws =
      ⟨[[]], ["An error occurred while trying to delete your account."], none⟩ := by
  refine ⟨rfl, ?_, rfl, rfl, rfl⟩
  simp only [bookingSubmitHandler, if_neg hdate]

/-- Witness for C5 at concrete inputs with a nonempty booking date. -/
theorem transport_throws_generic_error_witness :
    (BookingForm.mk ("7") ("2025-01-01") ("x")).bookingDate ≠ "" ∧
    bookingSubmitHandler ⟨"7", "2025-01-01", "x"⟩ FetchOutcome.throws =
      ⟨[mkBookingBody ⟨"7", "2025-01-01", "x"⟩], genericErrorHtml, "mt-3",
        "2025-01-01", "x", []⟩ :=
  ⟨by decide,
    (transport_throws_generic_error ⟨"3", "4.5", "g"⟩ ⟨"7", "2025-01-01", "x"⟩
      ("1") ("2") ["a"] (by decide)).2.1⟩

/-- C6: for every booking submission (with a nonempty date, so the request
is actually sent) whose response has `success: true`, the handler shows
the success message, clears the date and notes inputs, and schedules no
reload — unlike the review flow. -/
theorem booking_success_clears_no_reload (f : BookingForm) (msg : String)
    (hdate : f.bookingDate ≠ "") :
    bookingSubmitHandler f (FetchOutcome.ok ⟨true, msg⟩) =
      ⟨[mkBookingBody f], successAlertHtml msg, "mt-3", "", "", []⟩ := by
  simp only [bookingSubmitHandler, if_neg hdate]
  simp

/-- Witness for C6 at a concrete booking form. -/
theorem booking_success_clears_no_reload_witness :
    (BookingForm.mk ("7") ("2025-01-01") ("x")).bookingDate ≠ "" ∧
    bookingSubmitHandler ⟨"7", "2025-01-01", "x"⟩ (FetchOutcome.ok ⟨true, "Booked"⟩) =
      ⟨[mkBookingBody ⟨"7", "2025-01-01", "x"⟩], successAlertHtml ("Booked"),
        "mt-3", "", "", []⟩ :=
  ⟨by decide,
    booking_success_clears_no_reload ⟨"7", "2025-01-01", "x"⟩ ("Booked") (by decide)⟩

/-- C7: the review handler validates nothing: whatever `parseInt` and
`parseFloat` yield on the raw inputs — including `NaN` on non-numeric
text — is placed unchanged in the single request body, and when the rating
or service id is non-numeric the body carries that `NaN`. -/
theorem review_non_numeric_passthrough (f : ReviewForm) (fetch : FetchOutcome)
    (h : parseFloat f.rating = JsNum.nan ∨ parseInt f.serviceId = JsNum.nan) :
    (reviewSubmitHandler f fetch).requests = [mkReviewBody f] ∧
    (mkReviewBody f).rating = parseFloat f.rating ∧
    (mkReviewBody f).service_id = parseInt f.serviceId ∧
    ((mkReviewBody f).rating = JsNum.nan ∨ (mkReviewBody f).service_id = JsNum.nan) := by
  refine ⟨?_, rfl, rfl, h⟩
  cases fetch with
  | ok r =>
    cases r with
    | mk s m => cases s <;> rfl
  | throws => rfl

/-- Witness for C7: a non-numeric rating string parses to `NaN` and the
body forwards it. -/
theorem review_non_numeric_passthrough_witness :
    (parseFloat ("xyz") = JsNum.nan ∨ parseInt ("3") = JsNum.nan) ∧
    (reviewSubmitHandler ⟨"3", "xyz", "hi"⟩ FetchOutcome.throws).requests =
      [mkReviewBody ⟨"3", "xyz", "hi"⟩] ∧
    (mkReviewBody ⟨"3", "xyz", "hi"⟩).rating = JsNum.nan :=
  ⟨by decide,
    (review_non_numeric_passthrough ⟨"3", "xyz", "hi"⟩ FetchOutcome.throws
      (by decide)).1,
    by decide⟩

/-- C8: every confirmed self account deletion sends exactly one request
whose JSON body has no fields at all (in particular no user identifier),
and a `success: true` response navigates the browser to `/welcome`. -/
theorem delete_account_empty_body_and_welcome (msg : String) (fetch : FetchOutcome) :
    (deleteMyAccountHandler true fetch).requests = [[]] ∧
    deleteMyAccountHandler true (FetchOutcome.ok ⟨true, msg⟩) =
      ⟨[[]], [msg], some ("/welcome")⟩ := by
  refine ⟨?_, rfl⟩
  cases fetch with
  | ok r =>
    cases r with
    | mk s m => cases s <;> rfl
  | throws => rfl

/-- C9: for every copy-to-clipboard click on a body that does not already
contain the temporary textarea, the textarea appended by the handler is
removed again before the handler returns, whether the copy command
succeeds or throws: the body afterwards equals the body before. -/
theorem copy_temp_element_removed (contact : String) (body0 : List Elem)
    (hasSpan copySucceeds : Bool) (h : Elem.temp ∉ body0) :
    (copyContactHandler contact body0 hasSpan copySucceeds).body = body0 := by
  cases copySucceeds
  · exact removeChild_append_temp body0 h
  · exact removeChild_append_temp body0 h

/-- Witness for C9 at a concrete one-element body, for the throwing
branch of the copy command. -/
theorem copy_temp_element_removed_witness :
    Elem.temp ∉ [Elem.page ("a")] ∧
    (copyContactHandler ("555-1234") [Elem.page ("a")] true false).body =
      [Elem.page ("a")] :=
  ⟨by decide,
    copy_temp_element_removed ("555-1234") [Elem.page ("a")] true false (by decide)⟩

/-- C10: for every booking or user removal with a `success: true` response
whose derived row id is absent from the DOM, the handler still shows the
success alert and completes normally, leaving the DOM unchanged. -/
theorem removal_missing_row_safe (bid uid msg : String) (dom : List String)
    (hb : bookingRowId bid ∉ dom) (hu : userRowId uid ∉ dom) :
    removeBookingHandler bid true (FetchOutcome.ok ⟨true, msg⟩) dom =
      ⟨[[("booking_id", bid)]], [msg], dom⟩ ∧
    removeUserHandler uid true (FetchOutcome.ok ⟨true, msg⟩) dom =
      ⟨[[("user_id", uid)]], [msg], dom⟩ := by
  have h1 : removeBookingHandler bid true (FetchOutcome.ok ⟨true, msg⟩) dom =
      ⟨[[("booking_id", bid)]], [msg], removeElementById dom (bookingRowId bid)⟩ := rfl
  have h2 : removeUserHandler uid true (FetchOutcome.ok ⟨true, msg⟩) dom =
      ⟨[[("user_id", uid)]], [msg], removeElementById dom (userRowId uid)⟩ := rfl
  rw [h1, h2, removeElementById_eq_of_not_mem dom _ hb,
    removeElementById_eq_of_not_mem dom _ hu]
  exact ⟨rfl, rfl⟩

/-- Witness for C10 on a DOM that contains neither derived row id. -/
theorem removal_missing_row_safe_witness :
    bookingRowId ("9") ∉ (["x"] : List String) ∧
    userRowId ("9") ∉ (["x"] : List String) ∧
    removeBookingHandler ("9") true (FetchOutcome.ok ⟨true, "gone"⟩) ["x"] =
      ⟨[[("booking_id", "9")]], ["gone"], ["x"]⟩ :=
  ⟨by decide, by decide,
    (removal_missing_row_safe ("9") ("9") ("gone") ["x"] (by decide) (by decide)).1⟩
